import Mathlib

/-!
Verification of the `cashtx` cash-drawer reconciliation tool (`src/main.rs`).

Shallow embedding conventions:

* `rust_decimal::Decimal` values are embedded as `ℚ`.  `Decimal` equality
  (`==`) compares numeric values, `Decimal::normalize()` only strips trailing
  zeros from the internal scale and does not change the numeric value, so it
  is the identity in this embedding (noted at each use site).
* `f64` monetary fields are embedded as `ℚ`: the rational carried is the
  decimal value produced by `Decimal::from_f64` on that float.  All the
  program ever does with these floats is convert them to `Decimal` (or, for
  `amount_paid`, compare with `0.0`, where the float and its decimal image
  agree in sign for monetary data).  The one place where `Decimal::from_f64`
  can fail — the event amount at `main.rs:149`, unwrapped — is kept: the
  event amount field is `Option ℚ`, with `none` standing for an `f64`
  (NaN / infinite / out of `Decimal`'s range) rejected by `from_f64`.
* Panics (`unwrap`, `expect`) are embedded as `Option` results, `none`
  meaning the function panics and kills the process.
* `Decimal::round_dp(2)` uses the default `MidpointNearestEven` (banker's)
  strategy; it is embedded as `round_dp2` below via `roundHalfEven`.
* The LCS similarity comes from the external `rapidfuzz` crate
  (`lcs_seq::normalized_similarity`); it is not part of this repository, so
  it is modelled from its documented semantics, which is also what the spec
  describes: LCS length over the character sequences, divided by the larger
  of the two lengths, with the convention that two empty sequences have
  similarity 1.  The `f64` literal threshold `0.2` is embedded as the exact
  rational `1/5` (the nearest double to `1/5` is `0.2f64`, so the verdict of
  `score >= 0.2` agrees with the rational comparison on these scores).
* The `regex` crate is likewise external; `is_excluded` takes the regex
  engine as an explicit `String → String → Bool` argument (pattern,
  haystack).  `Regex::new` panicking on an invalid pattern is outside the
  claims considered here (the pattern instances used are `""` and fixed
  valid patterns).
* `chrono` date fields never influence the logic under verification; they
  are embedded as `Int` placeholders so the records keep their shape.
-/

/-! ## Data model (src/main.rs:56-260) -/

/-- `ShiftState` (main.rs:63-69). -/
inductive ShiftState where
  | Open
  | Closed
  | Ended
deriving DecidableEq, Repr

/-- `Shift` (main.rs:56-61); `created_at` is a date placeholder. -/
structure Shift where
  id : String
  state : ShiftState
  created_at : Int
deriving DecidableEq, Repr

/-- `ShiftEventType` (main.rs:83-95). -/
inductive ShiftEventType where
  | NoSale
  | CashTenderPayment
  | OtherTenderPayment
  | CashTenderCancelledPayment
  | OtherTenderCancelledPayment
  | CashTenderRefund
  | OtherTenderRefund
  | PaidIn
  | PaidOut
deriving DecidableEq, Repr

/-- `ShiftEventMoney` (main.rs:97-101).  `amount` is the event's `f64`:
`some q` is a float accepted by `Decimal::from_f64` with decimal value `q`;
`none` is a float rejected by it (NaN, infinite, out of range). -/
structure ShiftEventMoney where
  amount : Option ℚ
  currency : String
deriving DecidableEq, Repr

/-- `ShiftEvent` (main.rs:76-81). -/
structure ShiftEvent where
  event_type : ShiftEventType
  event_money : ShiftEventMoney
  description : Option String
deriving DecidableEq, Repr

/-- `InvoiceType` (main.rs:214-219): `AccPay` is "Payable", `AccRec` is
"Receivable". -/
inductive InvoiceType where
  | AccPay
  | AccRec
deriving DecidableEq, Repr

/-- `InvoiceStatus` (main.rs:221-230). -/
inductive InvoiceStatus where
  | Draft
  | Submitted
  | Authorised
  | Paid
  | Deleted
  | Voided
deriving DecidableEq, Repr

/-- `Contact` (main.rs:232-238). -/
structure Contact where
  contact_id : String
  name : String
deriving DecidableEq, Repr

/-- `Invoice` (main.rs:196-212); the two date fields are placeholders. -/
structure Invoice where
  invoice_type : InvoiceType
  invoice_id : String
  invoice_number : String
  amount_due : ℚ
  amount_paid : ℚ
  contact : Contact
  date : Int
  due_date : Int
  status : InvoiceStatus
deriving DecidableEq, Repr

/-- `InvoiceMatchResult` (main.rs:127-134). -/
inductive InvoiceMatchResult where
  | None
  | AlreadyPaid
  | UnpaidSingle (inv : Invoice)
  | UnpaidMultiple (invs : List Invoice)
deriving DecidableEq, Repr

/-! ## Amount normalization (main.rs:149-153, 161-168) -/

/-- Round a rational to an integer, ties to even — the default
`MidpointNearestEven` strategy of `rust_decimal`'s `round_dp`. -/
def roundHalfEven (q : ℚ) : ℤ :=
  let n : ℤ := ⌊q⌋
  let r : ℚ := q - n
  if r < 1 / 2 then n
  else if 1 / 2 < r then n + 1
  else if n % 2 = 0 then n else n + 1

/-- `Decimal::round_dp(2)` on the numeric value: round to 2 fractional
digits, ties to even.  The preceding `.normalize()` in the source strips
trailing zeros only and does not change the numeric value. -/
def round_dp2 (q : ℚ) : ℚ :=
  (roundHalfEven (q * 100) : ℚ) / 100

/-- The event-amount normalizer (main.rs:149-153): convert the event's minor
currency units to major units by decimal division by 100, then canonicalize
(`normalize().round_dp(2)`). -/
def norm_event_amount (a : ℚ) : ℚ :=
  round_dp2 (a / 100)

/-! ## Contact similarity (main.rs:136-145) -/

/-- Modelled from the spec: length of a longest common subsequence of the
tail `rest` of the first sequence extended with head `a`, against the second
sequence.  This is the inner loop of `lcsLen`; the two functions together are
the classic LCS recurrence, written as nested structural recursions so that
they reduce definitionally.  The LCS metric itself lives in the external
`rapidfuzz` crate (`lcs_seq`), not in this repository. -/
def lcsAux (a : Char) (rest : List Char → Nat) : List Char → Nat
  | [] => 0
  | b :: bs => if a = b then rest bs + 1 else max (lcsAux a rest bs) (rest (b :: bs))

/-- Modelled from the spec: longest-common-subsequence length of two
character sequences (`rapidfuzz::distance::lcs_seq` similarity). -/
def lcsLen : List Char → List Char → Nat
  | [], _ => 0
  | a :: as, t => lcsAux a (lcsLen as) t

/-- Modelled from the spec: `lcs_seq::normalized_similarity` — the LCS
length divided by the larger of the two lengths, and 1 when both sequences
are empty. -/
def normalized_similarity (s t : String) : ℚ :=
  if max s.data.length t.data.length = 0 then 1
  else (lcsLen s.data t.data : ℚ) / (max s.data.length t.data.length : ℚ)

/-- The plausibility test applied at main.rs:144: similarity at least the
`0.2` threshold (embedded as the exact rational `1/5`). -/
def passes_threshold (desc name : String) : Bool :=
  decide ((1 : ℚ) / 5 ≤ normalized_similarity desc name)

/-- `fuzzy_matches_contact` (main.rs:136-145): no description means no
match; otherwise compare the normalized LCS similarity of the description
and the contact name against the threshold. -/
def fuzzy_matches_contact (event : ShiftEvent) (contact : Contact) : Bool :=
  match event.description with
  | none => false
  | some desc => passes_threshold desc contact.name

/-! ## The matching engine (main.rs:147-194) -/

/-- The conjunction of the three successive `filter` predicates of
`find_match` (main.rs:158-170), applied in source order: invoice type is
`AccPay`, fuzzy contact match, and the normalized (`normalize().round_dp(2)`,
value-wise `round_dp2`) `amount_due` or `amount_paid` equals the normalized
event amount. -/
def qualifies (event : ShiftEvent) (event_dec : ℚ) (inv : Invoice) : Bool :=
  decide (inv.invoice_type = InvoiceType.AccPay) &&
  fuzzy_matches_contact event inv.contact &&
  (decide (round_dp2 inv.amount_due = event_dec) ||
   decide (round_dp2 inv.amount_paid = event_dec))

/-- Body of `find_match` after the event amount has been normalized
(main.rs:155-192): collect the invoices passing the three filters, return
`None` when there are none, otherwise partition on `amount_paid > 0.0`
(order preserving, as Rust's `partition`), return `AlreadyPaid` when the
paid side is non-empty, else classify by the number of unpaid candidates. -/
def find_match_body (invoices : List Invoice) (event : ShiftEvent)
    (event_dec : ℚ) : InvoiceMatchResult :=
  let matching_by_amount := invoices.filter (qualifies event event_dec)
  if matching_by_amount.isEmpty then
    InvoiceMatchResult.None
  else
    let part := matching_by_amount.partition (fun inv => decide (0 < inv.amount_paid))
    if !part.1.isEmpty then
      InvoiceMatchResult.AlreadyPaid
    else
      match part.2 with
      | [] => InvoiceMatchResult.None
      | [inv] => InvoiceMatchResult.UnpaidSingle inv
      | invs => InvoiceMatchResult.UnpaidMultiple invs

/-- `GetInvoicesResponse::find_match` (main.rs:148-193).  The first step
(main.rs:149-153) is `Decimal::from_f64(event.event_money.amount).unwrap()`
followed by decimal division by 100 and canonicalization; the `unwrap`
panics when `from_f64` fails, embedded as the `none` result. -/
def find_match (invoices : List Invoice) (event : ShiftEvent) :
    Option InvoiceMatchResult :=
  match event.event_money.amount with
  | none => none
  | some amt => some (find_match_body invoices event (norm_event_amount amt))

/-! ## Disambiguation prompt (main.rs:476-514) -/

/-- Rust's `str::trim` on the character sequence: drop leading and trailing
whitespace.  (`Char.isWhitespace` models Rust's Unicode-whitespace test on
the characters that occur here.) -/
def trimChars (cs : List Char) : List Char :=
  ((cs.dropWhile Char.isWhitespace).reverse.dropWhile Char.isWhitespace).reverse

/-- `str::parse::<usize>()` on a non-empty trimmed input (main.rs:511),
restricted to sign-free inputs (the prompt answers at issue): all characters
must be ASCII digits and the value must fit in a `usize`, otherwise the
parse fails (`none`). -/
def parse_usize (cs : List Char) : Option Nat :=
  if cs ≠ [] ∧ cs.all Char.isDigit then
    let v := cs.foldl (fun n c => n * 10 + (c.toNat - 48)) 0
    if v < 18446744073709551616 then some v else none
  else none

/-- The decision logic of `prompt_invoice_match` (main.rs:502-513) as a
function of the line read from stdin.  The console printing (main.rs:481-500)
has no effect on the returned value and is not modelled.

* outer `none` — the function panics (`chosen.parse().unwrap()` at
  main.rs:511 on input that does not parse as `usize`);
* `some none` — no invoice chosen (empty trimmed input at main.rs:507-509,
  or an out-of-range index for which `invoices.get(i)` is `None`);
* `some (some inv)` — the invoice at the chosen position
  (`invoices.get(chosen_int).cloned()` at main.rs:513). -/
def prompt_invoice_match (invoices : List Invoice) (input : String) :
    Option (Option Invoice) :=
  let chosen := trimChars input.data
  if chosen.isEmpty then some none
  else
    match parse_usize chosen with
    | none => none
    | some i => some invoices[i]?

/-! ## Driver guards (main.rs:324-347, 413-424) -/

/-- `is_excluded` (main.rs:413-424).  The `regex` crate is external, so the
compiled pattern's matcher is passed in as `re_is_match pattern haystack`;
the haystack is the event description (missing description treated as `""`),
lower-cased then trimmed, exactly as at main.rs:416-423.  (`Regex::new`
panicking on an invalid pattern is not modelled; the patterns at issue are
valid.) -/
def is_excluded (event : ShiftEvent) (pattern : String)
    (re_is_match : String → String → Bool) : Bool :=
  re_is_match pattern (String.mk (trimChars ((event.description.getD "").data.map Char.toLower)))

/-- The shift guard of the driver loop (main.rs:325-327): a shift is
processed only when its state is `Closed`. -/
def shift_processed (s : Shift) : Bool :=
  decide (s.state = ShiftState.Closed)

/-- The event guards of the driver loop (main.rs:341-347): an event is
skipped (`continue`) when it is not a `PaidOut` event, or when the exclusion
pattern is non-empty and `is_excluded` holds for it. -/
def event_skipped (exclusions : String) (re_is_match : String → String → Bool)
    (event : ShiftEvent) : Bool :=
  decide (event.event_type ≠ ShiftEventType.PaidOut) ||
  (!exclusions.isEmpty && is_excluded event exclusions re_is_match)

/-! ## Spec-side formalization helpers -/

/-- The spec's "completely disjoint character sets": no character of `s`
occurs in `t`. -/
def charsDisjoint (s t : String) : Bool :=
  s.data.all (fun c => decide (c ∉ t.data))

/-! ## Concrete sample data used by witnesses and counterexamples -/

def sample_contact : Contact := { contact_id := "c-1", name := "AB" }

/-- An unpaid qualifying invoice for the sample event. -/
def inv_unpaid : Invoice :=
  { invoice_type := InvoiceType.AccPay, invoice_id := "i-1", invoice_number := "N-1"
  , amount_due := 1, amount_paid := 0, contact := sample_contact
  , date := 0, due_date := 0, status := InvoiceStatus.Authorised }

/-- A second unpaid qualifying invoice. -/
def inv_unpaid2 : Invoice :=
  { invoice_type := InvoiceType.AccPay, invoice_id := "i-2", invoice_number := "N-2"
  , amount_due := 1, amount_paid := 0, contact := sample_contact
  , date := 0, due_date := 0, status := InvoiceStatus.Authorised }

/-- A qualifying invoice that is already (partially) paid. -/
def inv_paid : Invoice :=
  { invoice_type := InvoiceType.AccPay, invoice_id := "i-3", invoice_number := "N-3"
  , amount_due := 0, amount_paid := 1, contact := sample_contact
  , date := 0, due_date := 0, status := InvoiceStatus.Paid }

/-- A receivable invoice (never a candidate). -/
def inv_recv : Invoice :=
  { invoice_type := InvoiceType.AccRec, invoice_id := "i-4", invoice_number := "N-4"
  , amount_due := 1, amount_paid := 0, contact := sample_contact
  , date := 0, due_date := 0, status := InvoiceStatus.Authorised }

/-- A `PaidOut` event of 100 minor units with description "AB". -/
def sample_event : ShiftEvent :=
  { event_type := ShiftEventType.PaidOut
  , event_money := { amount := some 100, currency := "GBP" }
  , description := some "AB" }

/-- The sample event with its description removed. -/
def nodesc_event : ShiftEvent :=
  { event_type := ShiftEventType.PaidOut
  , event_money := { amount := some 100, currency := "GBP" }
  , description := none }

/-- An event whose `f64` amount is rejected by `Decimal::from_f64`
(NaN, infinite or out of range). -/
def nonfinite_event : ShiftEvent :=
  { event_type := ShiftEventType.PaidOut
  , event_money := { amount := none, currency := "GBP" }
  , description := some "AB" }

/-- A closed sample shift. -/
def sample_shift : Shift := { id := "S1", state := ShiftState.Closed, created_at := 0 }

/-! ## Supporting lemmas -/

/-- Rounding ties-to-even is the identity on integers. -/
theorem roundHalfEven_intCast (n : ℤ) : roundHalfEven (n : ℚ) = n := by
  unfold roundHalfEven
  rw [Int.floor_intCast]
  norm_num

/-- `round_dp2` is idempotent: its output has at most two fractional
digits, and rounding such a value again returns it unchanged. -/
theorem round_dp2_round_dp2 (q : ℚ) : round_dp2 (round_dp2 q) = round_dp2 q := by
  unfold round_dp2
  rw [div_mul_cancel₀ _ (by norm_num : (100 : ℚ) ≠ 0), roundHalfEven_intCast]

/-- The LCS length is at most the length of the first sequence. -/
theorem lcsLen_le_left : ∀ s t : List Char, lcsLen s t ≤ s.length := by
  intro s
  induction s with
  | nil => intro t; simp [lcsLen]
  | cons a as ih =>
    intro t
    induction t with
    | nil => simp [lcsLen, lcsAux]
    | cons b bs ihb =>
      simp only [lcsLen, lcsAux, List.length_cons]
      by_cases hab : a = b
      · simp only [if_pos hab]
        exact Nat.succ_le_succ (ih bs)
      · simp only [if_neg hab]
        refine Nat.max_le.mpr ⟨?_, ?_⟩
        · simpa [lcsLen, List.length_cons] using ihb
        · exact Nat.le_succ_of_le (ih (b :: bs))

/-- The LCS length is at most the length of the second sequence. -/
theorem lcsLen_le_right : ∀ s t : List Char, lcsLen s t ≤ t.length := by
  intro s
  induction s with
  | nil => intro t; simp [lcsLen]
  | cons a as ih =>
    intro t
    induction t with
    | nil => simp [lcsLen, lcsAux]
    | cons b bs ihb =>
      simp only [lcsLen, lcsAux, List.length_cons]
      by_cases hab : a = b
      · simp only [if_pos hab]
        exact Nat.succ_le_succ (ih bs)
      · simp only [if_neg hab]
        refine Nat.max_le.mpr ⟨?_, ?_⟩
        · exact Nat.le_succ_of_le (by simpa [lcsLen] using ihb)
        · exact ih (b :: bs)

/-- A sequence is a longest common subsequence of itself. -/
theorem lcsLen_self : ∀ s : List Char, lcsLen s s = s.length := by
  intro s
  induction s with
  | nil => rfl
  | cons a as ih => simp [lcsLen, lcsAux, ih]

/-- Sequences without a common character have LCS length zero. -/
theorem lcsLen_eq_zero_of_disjoint :
    ∀ s t : List Char, (∀ c, c ∈ s → c ∉ t) → lcsLen s t = 0 := by
  intro s
  induction s with
  | nil => intro t _; rfl
  | cons a as ih =>
    intro t
    induction t with
    | nil => intro _; rfl
    | cons b bs ihb =>
      intro h
      have hab : a ≠ b := by
        intro he
        exact h a (List.mem_cons_self a as) (he ▸ List.mem_cons_self b bs)
      have h1 : lcsLen (a :: as) bs = 0 :=
        ihb (fun c hc hm => h c hc (List.mem_cons_of_mem b hm))
      have h2 : lcsLen as (b :: bs) = 0 :=
        ih (b :: bs) (fun c hc => h c (List.mem_cons_of_mem a hc))
      show lcsAux a (lcsLen as) (b :: bs) = 0
      simp only [lcsAux, if_neg hab]
      show max (lcsLen (a :: as) bs) (lcsLen as (b :: bs)) = 0
      simp [h1, h2]

/-- The three successive filters of `find_match` (main.rs:158-170) collapse
to the single filter on `qualifies`. -/
theorem filter_chain_eq (invoices : List Invoice) (e : ShiftEvent) (d : ℚ) :
    ((invoices.filter (fun inv => decide (inv.invoice_type = InvoiceType.AccPay))).filter
        (fun inv => fuzzy_matches_contact e inv.contact)).filter
      (fun inv => decide (round_dp2 inv.amount_due = d) ||
        decide (round_dp2 inv.amount_paid = d)) =
    invoices.filter (qualifies e d) := by
  rw [List.filter_filter, List.filter_filter]
  apply List.filter_congr
  intro inv _
  simp only [qualifies]
  cases fuzzy_matches_contact e inv.contact <;>
    cases decide (inv.invoice_type = InvoiceType.AccPay) <;>
      cases (decide (round_dp2 inv.amount_due = d) || decide (round_dp2 inv.amount_paid = d)) <;>
        rfl

/-! ## Claims -/

/-- C1: for every payout event (with an amount `Decimal::from_f64` accepts)
and invoice list, if at least one qualifying candidate invoice — `AccPay`
type, fuzzy contact match, normalized-amount equality — has
`amount_paid > 0`, then `find_match` returns `AlreadyPaid`; nothing is
assumed about the other invoices (unpaid qualifying candidates may exist)
and the invoice's `status` field is unconstrained. -/
theorem C1_already_paid_precedence (invoices : List Invoice) (e : ShiftEvent) (a : ℚ)
    (hamt : e.event_money.amount = some a) (inv : Invoice) (hmem : inv ∈ invoices)
    (hq : qualifies e (norm_event_amount a) inv = true) (hpaid : 0 < inv.amount_paid) :
    find_match invoices e = some InvoiceMatchResult.AlreadyPaid := by
  have hmem2 : inv ∈ invoices.filter (qualifies e (norm_event_amount a)) :=
    List.mem_filter.mpr ⟨hmem, hq⟩
  have hmem3 : inv ∈ (invoices.filter (qualifies e (norm_event_amount a))).filter
      (fun i => decide (0 < i.amount_paid)) :=
    List.mem_filter.mpr ⟨hmem2, by simpa using hpaid⟩
  have h1 : (invoices.filter (qualifies e (norm_event_amount a))).isEmpty = false := by
    simpa [List.isEmpty_iff] using List.ne_nil_of_mem hmem2
  have h2 : ((invoices.filter (qualifies e (norm_event_amount a))).filter
      (fun i => decide (0 < i.amount_paid))).isEmpty = false := by
    simpa [List.isEmpty_iff] using List.ne_nil_of_mem hmem3
  simp [find_match, hamt, find_match_body, List.partition_eq_filter_filter, h1, h2,
    -List.filter_filter]

/-- C1 witness: a paid qualifying candidate alongside an unpaid qualifying
candidate yields `AlreadyPaid`. -/
theorem C1_witness :
    find_match [inv_paid, inv_unpaid] sample_event = some InvoiceMatchResult.AlreadyPaid := by
  refine C1_already_paid_precedence [inv_paid, inv_unpaid] sample_event 100 rfl inv_paid
    (List.mem_cons_self _ _) ?_ ?_
  · norm_num [qualifies, fuzzy_matches_contact, sample_event, inv_paid, sample_contact,
      passes_threshold, normalized_similarity, lcsLen, lcsAux, norm_event_amount,
      round_dp2, roundHalfEven]
  · norm_num [inv_paid]

/-- C2: an event without a description (and with an amount
`Decimal::from_f64` accepts) never matches: `find_match` returns `None`
whatever the invoices' amounts are, because `fuzzy_matches_contact` rejects
every invoice before the amount filter is reached. -/
theorem C2_no_description_no_match (invoices : List Invoice) (e : ShiftEvent) (a : ℚ)
    (hamt : e.event_money.amount = some a) (hdesc : e.description = none) :
    find_match invoices e = some InvoiceMatchResult.None := by
  have h1 : invoices.filter (qualifies e (norm_event_amount a)) = [] := by
    rw [List.filter_eq_nil_iff]
    intro inv _
    simp [qualifies, fuzzy_matches_contact, hdesc]
  simp [find_match, hamt, find_match_body, h1]

/-- C2 witness: the sample unpaid invoice matches the sample event on
amount, yet the description-free variant of the event yields `None`. -/
theorem C2_witness :
    find_match [inv_unpaid] nodesc_event = some InvoiceMatchResult.None :=
  C2_no_description_no_match [inv_unpaid] nodesc_event 100 rfl rfl

/-- C3: for an event with a description (and an amount `Decimal::from_f64`
accepts), an invoice passes the candidate filter of `find_match` exactly
when its type is `AccPay`, its contact similarity to the description passes
the threshold, and its normalized `amount_due` or normalized `amount_paid`
equals the normalized event amount; and if no invoice qualifies, the result
is `None`. -/
theorem C3_candidate_characterization (invoices : List Invoice) (e : ShiftEvent)
    (a : ℚ) (d : String)
    (hamt : e.event_money.amount = some a) (hdesc : e.description = some d) :
    (∀ inv : Invoice,
      qualifies e (norm_event_amount a) inv = true ↔
        (inv.invoice_type = InvoiceType.AccPay ∧
         passes_threshold d inv.contact.name = true ∧
         (round_dp2 inv.amount_due = norm_event_amount a ∨
          round_dp2 inv.amount_paid = norm_event_amount a))) ∧
    ((∀ inv ∈ invoices, qualifies e (norm_event_amount a) inv = false) →
      find_match invoices e = some InvoiceMatchResult.None) := by
  constructor
  · intro inv
    simp [qualifies, fuzzy_matches_contact, hdesc, and_assoc]
  · intro hall
    have h1 : invoices.filter (qualifies e (norm_event_amount a)) = [] := by
      rw [List.filter_eq_nil_iff]
      intro inv hm
      simp [hall inv hm]
    simp [find_match, hamt, find_match_body, h1]

/-- C3 witness: the characterization applied to the paid sample invoice,
and `None` on a list holding only a receivable invoice. -/
theorem C3_witness :
    (qualifies sample_event (norm_event_amount 100) inv_paid = true ↔
      (inv_paid.invoice_type = InvoiceType.AccPay ∧
       passes_threshold "AB" inv_paid.contact.name = true ∧
       (round_dp2 inv_paid.amount_due = norm_event_amount 100 ∨
        round_dp2 inv_paid.amount_paid = norm_event_amount 100))) ∧
    find_match [inv_recv] sample_event = some InvoiceMatchResult.None := by
  have h := C3_candidate_characterization [inv_recv] sample_event 100 "AB" rfl rfl
  refine ⟨h.1 inv_paid, h.2 ?_⟩
  intro inv hm
  have : inv = inv_recv := by simpa using hm
  subst this
  simp [qualifies, inv_recv]

/-- C4: when every qualifying candidate has `amount_paid = 0`, a single
candidate yields `UnpaidSingle` with that invoice, and two or more yield
`UnpaidMultiple` carrying exactly the filtered sublist of the input list —
original order, no re-sorting, deduplication or reordering. -/
theorem C4_unpaid_classification (invoices : List Invoice) (e : ShiftEvent) (a : ℚ)
    (hamt : e.event_money.amount = some a)
    (hall : ∀ inv ∈ invoices, qualifies e (norm_event_amount a) inv = true →
      inv.amount_paid = 0) :
    (∀ inv : Invoice, invoices.filter (qualifies e (norm_event_amount a)) = [inv] →
      find_match invoices e = some (InvoiceMatchResult.UnpaidSingle inv)) ∧
    (2 ≤ (invoices.filter (qualifies e (norm_event_amount a))).length →
      find_match invoices e = some (InvoiceMatchResult.UnpaidMultiple
        (invoices.filter (qualifies e (norm_event_amount a))))) := by
  have hpaid : (invoices.filter (qualifies e (norm_event_amount a))).filter
      (fun i => decide (0 < i.amount_paid)) = [] := by
    rw [List.filter_eq_nil_iff]
    intro inv hm
    have h0 := hall inv (List.mem_of_mem_filter hm) (List.of_mem_filter hm)
    simp [h0]
  have hunpaid : (invoices.filter (qualifies e (norm_event_amount a))).filter
      (not ∘ fun i => decide (0 < i.amount_paid)) =
      invoices.filter (qualifies e (norm_event_amount a)) := by
    rw [List.filter_eq_self]
    intro inv hm
    have h0 := hall inv (List.mem_of_mem_filter hm) (List.of_mem_filter hm)
    simp [Function.comp, h0]
  constructor
  · intro inv hfil
    have hp := hpaid
    have hu := hunpaid
    rw [hfil] at hp hu
    simp [find_match, hamt, find_match_body, List.partition_eq_filter_filter, hfil, hp, hu]
  · intro hlen
    obtain ⟨x, y, rest, hL⟩ : ∃ x y rest,
        invoices.filter (qualifies e (norm_event_amount a)) = x :: y :: rest := by
      match hfl : invoices.filter (qualifies e (norm_event_amount a)), hlen with
      | x :: y :: rest, _ => exact ⟨x, y, rest, rfl⟩
    have hp := hpaid
    have hu := hunpaid
    rw [hL] at hp hu
    simp [find_match, hamt, find_match_body, List.partition_eq_filter_filter, hL, hp, hu]

/-- C4 witness: one unpaid qualifying candidate gives `UnpaidSingle`; two
give `UnpaidMultiple` in input order. -/
theorem C4_witness :
    find_match [inv_unpaid] sample_event =
      some (InvoiceMatchResult.UnpaidSingle inv_unpaid) ∧
    find_match [inv_unpaid, inv_unpaid2] sample_event =
      some (InvoiceMatchResult.UnpaidMultiple [inv_unpaid, inv_unpaid2]) := by
  have hq1 : qualifies sample_event (norm_event_amount 100) inv_unpaid = true := by
    norm_num [qualifies, fuzzy_matches_contact, sample_event, inv_unpaid, sample_contact,
      passes_threshold, normalized_similarity, lcsLen, lcsAux, norm_event_amount,
      round_dp2, roundHalfEven]
  have hq2 : qualifies sample_event (norm_event_amount 100) inv_unpaid2 = true := by
    norm_num [qualifies, fuzzy_matches_contact, sample_event, inv_unpaid2, sample_contact,
      passes_threshold, normalized_similarity, lcsLen, lcsAux, norm_event_amount,
      round_dp2, roundHalfEven]
  constructor
  · refine (C4_unpaid_classification [inv_unpaid] sample_event 100 rfl ?_).1 inv_unpaid ?_
    · intro inv hm _
      have : inv = inv_unpaid := by simpa using hm
      subst this; rfl
    · simp [List.filter, hq1]
  · have h := (C4_unpaid_classification [inv_unpaid, inv_unpaid2] sample_event 100 rfl ?_).2 ?_
    · have hfl : ([inv_unpaid, inv_unpaid2].filter
          (qualifies sample_event (norm_event_amount 100))) = [inv_unpaid, inv_unpaid2] := by
        simp [List.filter, hq1, hq2]
      rwa [hfl] at h
    · intro inv hm _
      rcases (by simpa using hm : inv = inv_unpaid ∨ inv = inv_unpaid2) with h1 | h1 <;>
        (subst h1; rfl)
    · have hfl : ([inv_unpaid, inv_unpaid2].filter
          (qualifies sample_event (norm_event_amount 100))) = [inv_unpaid, inv_unpaid2] := by
        simp [List.filter, hq1, hq2]
      rw [hfl]
      norm_num

/-- C5 counterexample: the empty description and the empty contact name
have (vacuously) completely disjoint character sets, yet their similarity
score is 1, not 0 — two empty sequences count as identical
(`normalized_similarity` of two empty strings is 1). -/
theorem C5_similarity_counterexample :
    charsDisjoint "" "" = true ∧
    normalized_similarity "" "" = 1 ∧ normalized_similarity "" "" ≠ 0 := by
  refine ⟨rfl, by norm_num [normalized_similarity], by norm_num [normalized_similarity]⟩

/-- C5 (amended): the similarity score is always in `[0, 1]`; it is 1 for
identical strings; it is 0 for strings with completely disjoint character
sets *unless both strings are empty*; the pair passes the threshold exactly
when the score is at least `1/5` (so a score of exactly `0.2` passes), and
any score below `1/5` — in particular `0.1999 < 1/5` — does not. -/
theorem C5_similarity_amended :
    (∀ s t : String, 0 ≤ normalized_similarity s t ∧ normalized_similarity s t ≤ 1) ∧
    (∀ s : String, normalized_similarity s s = 1) ∧
    (∀ s t : String, charsDisjoint s t = true → (s.data ≠ [] ∨ t.data ≠ []) →
      normalized_similarity s t = 0) ∧
    (∀ s t : String, passes_threshold s t = true ↔
      (1 : ℚ) / 5 ≤ normalized_similarity s t) ∧
    (∀ s t : String, normalized_similarity s t < (1 : ℚ) / 5 →
      passes_threshold s t = false) ∧
    (1999 : ℚ) / 10000 < 1 / 5 := by
  refine ⟨?_, ?_, ?_, ?_, ?_, by norm_num⟩
  · intro s t
    unfold normalized_similarity
    by_cases hm : max s.data.length t.data.length = 0
    · rw [if_pos hm]
      norm_num
    · rw [if_neg hm]
      have hmp : 0 < max s.data.length t.data.length := Nat.pos_of_ne_zero hm
      constructor
      · positivity
      · rw [div_le_one (by exact_mod_cast hmp)]
        exact_mod_cast le_trans (lcsLen_le_left s.data t.data) (le_max_left _ _)
  · intro s
    unfold normalized_similarity
    by_cases hm : max s.data.length s.data.length = 0
    · rw [if_pos hm]
    · rw [if_neg hm, lcsLen_self, max_self]
      have hne : (s.data.length : ℚ) ≠ 0 :=
        Nat.cast_ne_zero.mpr (fun h => hm (by simp [h]))
      exact div_self hne
  · intro s t hd hne
    have hdis : ∀ c, c ∈ s.data → c ∉ t.data := by
      intro c hc
      have := List.all_eq_true.mp hd c hc
      simpa using this
    have h0 : lcsLen s.data t.data = 0 := lcsLen_eq_zero_of_disjoint s.data t.data hdis
    have hm : max s.data.length t.data.length ≠ 0 := by
      intro h
      rcases Nat.max_eq_zero_iff.mp h with ⟨h1, h2⟩
      rcases hne with h3 | h3
      · exact h3 (List.length_eq_zero.mp h1)
      · exact h3 (List.length_eq_zero.mp h2)
    unfold normalized_similarity
    rw [if_neg hm, h0]
    simp
  · intro s t
    simp [passes_threshold]
  · intro s t h
    simpa [passes_threshold] using not_le.mpr h

/-- C5 witness: disjoint non-empty strings score 0; a score of exactly
`1/5` passes the threshold; a score below `1/5` does not. -/
theorem C5_similarity_witness :
    normalized_similarity "ab" "cd" = 0 ∧
    passes_threshold "a" "abbbb" = true ∧
    passes_threshold "a" "aaaaaa" = false := by
  refine ⟨C5_similarity_amended.2.2.1 "ab" "cd" (by decide) (Or.inl (by decide)), ?_, ?_⟩
  · exact (C5_similarity_amended.2.2.2.1 "a" "abbbb").mpr
      (by norm_num [normalized_similarity, lcsLen, lcsAux])
  · exact C5_similarity_amended.2.2.2.2.1 "a" "aaaaaa"
      (by norm_num [normalized_similarity, lcsLen, lcsAux])

/-- C6: amount normalization is idempotent — `round_dp2` applied to an
already-rounded value (in particular to an already-normalized event amount)
returns it unchanged — and normalizing 12345 minor units yields exactly
123.45. -/
theorem C6_normalization_idempotent :
    (∀ q : ℚ, round_dp2 (round_dp2 q) = round_dp2 q) ∧
    (∀ a : ℚ, round_dp2 (norm_event_amount a) = norm_event_amount a) ∧
    norm_event_amount 12345 = (123.45 : ℚ) := by
  refine ⟨round_dp2_round_dp2, ?_, ?_⟩
  · intro a
    exact round_dp2_round_dp2 (a / 100)
  · norm_num [norm_event_amount, round_dp2, roundHalfEven]

/-- C8: the matching engine's only failure is the event-amount conversion:
on an event whose `f64` amount is rejected by `Decimal::from_f64` the
`unwrap` at main.rs:150 panics — the embedded `find_match` returns `none`,
killing the whole run rather than isolating the event — while for any event
whose amount converts, `find_match` always produces a result. -/
theorem C8_panic_on_nonfinite_amount :
    find_match [inv_unpaid] nonfinite_event = none ∧
    ∀ (invoices : List Invoice) (e : ShiftEvent) (a : ℚ),
      e.event_money.amount = some a → find_match invoices e ≠ none := by
  refine ⟨rfl, ?_⟩
  intro invoices e a hamt
  simp [find_match, hamt]

/-- C8 witness: the sample event (finite amount) never makes `find_match`
panic. -/
theorem C8_witness : find_match [inv_unpaid] sample_event ≠ none :=
  C8_panic_on_nonfinite_amount.2 [inv_unpaid] sample_event 100 rfl

/-- C9: the prompt's decision logic on a list of two candidates — empty
(or all-whitespace) input defers; a numeric in-range input selects the
invoice at that position in the presented order; an out-of-range numeric
input yields no selection (deferred by the caller); but a non-numeric input
makes the `unwrap` at main.rs:511 panic (`none`), killing the run. -/
theorem C9_prompt_behavior :
    prompt_invoice_match [inv_unpaid, inv_unpaid2] "" = some none ∧
    prompt_invoice_match [inv_unpaid, inv_unpaid2] " " = some none ∧
    prompt_invoice_match [inv_unpaid, inv_unpaid2] "0" = some (some inv_unpaid) ∧
    prompt_invoice_match [inv_unpaid, inv_unpaid2] "1" = some (some inv_unpaid2) ∧
    prompt_invoice_match [inv_unpaid, inv_unpaid2] "7" = some none ∧
    prompt_invoice_match [inv_unpaid, inv_unpaid2] "abc" = none := by
  refine ⟨rfl, by decide, by decide, by decide, by decide, by decide⟩

/-- C10: a closed shift is processed, and with the empty exclusion pattern
a `PaidOut` event is never skipped as excluded — the `is_excluded` predicate
is short-circuited away at main.rs:345 — even though the empty pattern, as a
regex, matches every haystack, so the unguarded predicate would have
excluded the event. -/
theorem C10_empty_pattern_excludes_nothing (s : Shift) (e : ShiftEvent)
    (re_is_match : String → String → Bool)
    (hs : s.state = ShiftState.Closed)
    (he : e.event_type = ShiftEventType.PaidOut)
    (hre : ∀ hay : String, re_is_match "" hay = true) :
    shift_processed s = true ∧
    event_skipped "" re_is_match e = false ∧
    is_excluded e "" re_is_match = true := by
  refine ⟨by simp [shift_processed, hs], ?_, hre _⟩
  have hempty : ("" : String).isEmpty = true := rfl
  simp [event_skipped, he, hempty]

/-- C10 witness: the sample closed shift and `PaidOut` event, with a
matcher that (like the regex engine on the empty pattern) accepts every
haystack. -/
theorem C10_witness :
    shift_processed sample_shift = true ∧
    event_skipped "" (fun _ _ => true) sample_event = false ∧
    is_excluded sample_event "" (fun _ _ => true) = true :=
  C10_empty_pattern_excludes_nothing sample_shift sample_event (fun _ _ => true)
    rfl rfl (fun _ => rfl)
